import Mathlib

/-!
Shallow embedding of `main/temp_sensor.c` from robertek/esp32_influxdb_temp_sensor,
and proofs of the specified properties of its wake-cycle orchestrator
(`app_main`), bounded-retry Wi-Fi join state machine (`wifi_event_handler`,
`wifi_start`), battery sampler (`read_battery`) and telemetry formatter
(`send_data`).

Modelling conventions:
* ESP-IDF error codes that the program inspects are an inductive `EspErr`.
* The asynchronous Wi-Fi event handler is a step function on an explicit
  state (`WifiState`), driven by a list of delivered events; the number of
  `esp_wifi_connect()` calls is tracked in a ghost field `attempts`.
* `snprintf` formatting is embedded over `List Char`; `%0.2f`
  applied to a sensor value is modelled exactly on the value scaled to
  hundredths (an integer number of centi-units), which captures every
  rendering the C format can produce on the declared decimal ranges.
* Hardware reads (ADC raw value, calibration e-fuse check, event-group wait
  results, wake cause) are inputs of the corresponding Lean functions.
-/

namespace TempSensor

/-- ESP-IDF error codes distinguished by `temp_sensor.c`. -/
inductive EspErr where
  | ok
  | errNvsNoFreePages
  | errNvsNewVersionFound
  | errWifiNotConnect
  | errNotSupported
  | errInvalidVersion
  | errInvalidState
  | errInvalidArg
  | otherErr
deriving DecidableEq, Repr

/-! ## Wi-Fi join state machine (`wifi_event_handler`, lines 68-89) -/

/-- The events delivered to `wifi_event_handler`: `WIFI_EVENT_STA_START`,
`WIFI_EVENT_STA_DISCONNECTED`, `IP_EVENT_STA_GOT_IP`, or anything else. -/
inductive WifiEvent where
  | staStart
  | staDisconnected
  | gotIp
  | otherEvent
deriving DecidableEq, Repr

/-- State touched by `wifi_event_handler`: the global `s_retry_num` counter,
the two event-group bits `WIFI_CONNECTED_BIT` / `WIFI_FAIL_BIT`, and a ghost
counter of `esp_wifi_connect()` calls. -/
structure WifiState where
  retryNum : Nat
  connected : Bool
  failed : Bool
  attempts : Nat
deriving DecidableEq, Repr

/-- State at `wifi_start` entry: `s_retry_num = 0`, fresh event group. -/
def initWifiState : WifiState :=
  { retryNum := 0, connected := false, failed := false, attempts := 0 }

/-- One invocation of `wifi_event_handler` (lines 68-89). `maxRetry` is
`CONFIG_MAXIMUM_RETRY`. On STA start it calls `esp_wifi_connect()`; on
disconnect it reconnects and increments `s_retry_num` while below the
ceiling, otherwise sets `WIFI_FAIL_BIT`; on got-IP it zeroes `s_retry_num`
and sets `WIFI_CONNECTED_BIT`. -/
def wifi_event_handler (maxRetry : Nat) (s : WifiState) : WifiEvent → WifiState
  | WifiEvent.staStart => { s with attempts := s.attempts + 1 }
  | WifiEvent.staDisconnected =>
      if s.retryNum < maxRetry then
        { s with attempts := s.attempts + 1, retryNum := s.retryNum + 1 }
      else
        { s with failed := true }
  | WifiEvent.gotIp => { s with retryNum := 0, connected := true }
  | WifiEvent.otherEvent => s

/-- Run the handler over a list of delivered events. -/
def runEvents (maxRetry : Nat) (s : WifiState) : List WifiEvent → WifiState
  | [] => s
  | e :: es => runEvents maxRetry (wifi_event_handler maxRetry s e) es

/-- A trace of a single failing join attempt after the initial STA-start:
only disconnect (or irrelevant) events are delivered. -/
def failureEvents (es : List WifiEvent) : Prop :=
  ∀ e ∈ es, e = WifiEvent.staDisconnected ∨ e = WifiEvent.otherEvent

instance (es : List WifiEvent) : Decidable (failureEvents es) := by
  unfold failureEvents; infer_instance

/-! ## `wifi_start` (lines 94-174) -/

/-- The `nvs_flash_init` / erase / retry prologue of `wifi_start`
(lines 113-118): when the first init reports no-free-pages or
new-version-found, the flash is erased and init is retried; the second
result (or the first, otherwise) is what `ESP_ERROR_CHECK(ret)` inspects. -/
def nvs_flash_init_seq (first second : EspErr) : EspErr :=
  if first = EspErr.errNvsNoFreePages ∨ first = EspErr.errNvsNewVersionFound then
    second
  else
    first

/-- The outcome of `xEventGroupWaitBits` observed at line 148: which of the
two terminal bits were set when the wait returned. -/
structure WaitBits where
  connectedBit : Bool
  failBit : Bool
deriving DecidableEq, Repr

/-- Lines 154-164: `ret` after the three-way test of the wait result.
The connected branch leaves `ret` at `ESP_OK` (its value after a successful
NVS init); both the fail-bit branch and the unexpected-event branch assign
`ESP_ERR_WIFI_NOT_CONNECT`. -/
def wait_ret (bits : WaitBits) : EspErr :=
  if bits.connectedBit then EspErr.ok
  else if bits.failBit then EspErr.errWifiNotConnect
  else EspErr.errWifiNotConnect

/-- `wifi_start` (lines 94-174), with the results of the two `nvs_flash_init`
calls and of the event wait as inputs. `none` models the `ESP_ERROR_CHECK`
abort at line 119 when NVS provisioning fails even after erase-and-retry;
the platform init calls that the spec treats as infallible collaborators are
not modelled as failure sources. -/
def wifi_start (nvs1 nvs2 : EspErr) (bits : WaitBits) : Option EspErr :=
  if nvs_flash_init_seq nvs1 nvs2 = EspErr.ok then
    some (wait_ret bits)
  else
    none

/-! ## Battery sampler (`read_battery`, lines 271-315) -/

/-- Inputs of one `read_battery` run. `calibInitGarbage` is the
indeterminate initial value of the local `bool calib_enable`, which the C
code declares without an initializer (line 275) and assigns only in the
`ESP_OK` branch of the calibration check; `calibRet` is the result of
`esp_adc_cal_check_efuse`; `transientFails` is how many times
`adc2_get_raw` reports `ESP_ERR_INVALID_STATE` before a good read;
`calVoltage` is the value `esp_adc_cal_raw_to_voltage` returns for the raw
sample; `coef` and `offset` are `CONFIG_BATT_COEF` / `CONFIG_BATT_OFFSET`. -/
structure BattEnv where
  calibInitGarbage : Bool
  calibRet : EspErr
  transientFails : Nat
  calVoltage : Nat
  coef : Int
  offset : Int

/-- Value of `calib_enable` after the calibration check (lines 282-293):
it is assigned `true` only when the check returns `ESP_OK`; on every other
outcome it keeps its indeterminate initial value. -/
def calib_enable_after_check (env : BattEnv) : Bool :=
  if env.calibRet = EspErr.ok then true else env.calibInitGarbage

/-- The value stored into the global `battery_voltage` (lines 304-311):
calibrated conversion with linear correction when `calib_enable` holds,
otherwise 0. -/
def read_battery_voltage (env : BattEnv) : Int :=
  if calib_enable_after_check env then
    (env.calVoltage : Int) * env.coef + env.offset
  else
    0

/-- Hardware actions `read_battery` performs, in order. -/
inductive BattAction where
  | battEnSet (level : Nat)
  | settleDelay
  | adcRead
deriving DecidableEq, Repr

/-- The straight-line action sequence of `read_battery` (lines 271-315):
enable switch high, settle delay, the raw-read loop (repeated while the ADC
reports the transient invalid state), enable switch low. The gpio writes
are unconditional: no branch of the function skips them. -/
def read_battery_trace (env : BattEnv) : List BattAction :=
  BattAction.battEnSet 1 :: BattAction.settleDelay ::
    (List.replicate (env.transientFails + 1) BattAction.adcRead ++
      [BattAction.battEnSet 0])

/-- The level of the `CONFIG_BATT_EN` line after executing a trace, starting
from level `l`. -/
def finalBattEnLevel : List BattAction → Nat → Nat
  | [], l => l
  | BattAction.battEnSet v :: rest, _ => finalBattEnLevel rest v
  | BattAction.settleDelay :: rest, l => finalBattEnLevel rest l
  | BattAction.adcRead :: rest, l => finalBattEnLevel rest l

/-! ## Telemetry formatting (`send_data`, lines 215-255) -/

/-- `#define BUF_SIZE 128` (line 53). -/
def BUF_SIZE : Nat := 128

/-- Decimal digit characters of `n`, most significant first, as produced by
`%d` / `%u` style rendering. Structural recursion on a fuel argument that is
always sufficient (`fuel > n` implies the base case is never reached), so
that the definition reduces inside the kernel. -/
def natDecCharsAux : Nat → Nat → List Char
  | 0, _ => []
  | f + 1, n =>
      if n < 10 then [Nat.digitChar n]
      else natDecCharsAux f (n / 10) ++ [Nat.digitChar (n % 10)]

/-- Decimal rendering of a natural number. -/
def natDecChars (n : Nat) : List Char := natDecCharsAux (n + 1) n

/-- `%d` rendering of a (possibly negative) C `int` value. -/
def intDecChars (i : Int) : List Char :=
  if i < 0 then '-' :: natDecChars i.natAbs else natDecChars i.natAbs

/-- The two forced fraction digits of `%0.2f`, for `r < 100` hundredths. -/
def twoFracChars (r : Nat) : List Char :=
  [Nat.digitChar (r / 10), Nat.digitChar (r % 10)]

/-- `%0.2f` rendering of the value `centi / 100` (the sensor value scaled
to an exact number of hundredths): optional sign, integer part, `'.'`, and
exactly two fraction digits. -/
def fmt2f (centi : Int) : List Char :=
  (if centi < 0 then ['-'] else []) ++
    natDecChars (centi.natAbs / 100) ++ '.' :: twoFracChars (centi.natAbs % 100)

/-- `INFLUX_TAG` (lines 50-51): `CONFIG_INFLUX_MEAS ",site=" CONFIG_INFLUX_SITE
",place=" CONFIG_INFLUX_PLACE`, with the three configured strings as
parameters. -/
def influx_tag (meas site place : List Char) : List Char :=
  meas ++ ",site=".data ++ site ++ ",place=".data ++ place

/-- The full body `send_data` formats (lines 233-235): three line-protocol
records sharing the tag prefix, `temp` and `humi` with `%0.2f` and `batt`
with `%d`. `tempC` and `humiC` are the sensor values in hundredths. -/
def send_data_body (meas site place : List Char) (tempC humiC batt : Int) :
    List Char :=
  influx_tag meas site place ++ " temp=".data ++ fmt2f tempC ++ ['\n'] ++
    influx_tag meas site place ++ " humi=".data ++ fmt2f humiC ++ ['\n'] ++
    influx_tag meas site place ++ " batt=".data ++ intDecChars batt ++ ['\n']

/-- `snprintf(data, cap, ...)`: at most `cap - 1` characters are stored, the
rest is truncated (a terminating NUL occupies the final byte). -/
def snprintf_write (cap : Nat) (s : List Char) : List Char :=
  s.take (cap - 1)

/-- Number of fraction digits after the last `'.'` of a rendered value:
`none` when no `'.'` occurs. `acc` carries the count since the last dot. -/
def fracLenAux (acc : Option Nat) : List Char → Option Nat
  | [] => acc
  | c :: cs =>
      if c = '.' then fracLenAux (some 0) cs
      else fracLenAux (acc.map (· + 1)) cs

/-- Fraction-digit count of a rendered value. -/
def fracLen (l : List Char) : Option Nat := fracLenAux none l

/-- Resource-relevant operations of `send_data` (lines 215-255). -/
inductive SendAction where
  | mallocBuf
  | httpInit
  | httpSetMethod
  | httpSetPostField
  | httpPerform
  | httpCleanup
  | freeBuf
deriving DecidableEq, Repr

/-- The operation sequence of one `send_data` call. `mallocOk` is whether
`malloc(BUF_SIZE)` succeeded (line 228 returns immediately when it did not,
before any HTTP client call); `performRet` is the `esp_http_client_perform`
result, which only selects whether the status is logged (line 246) — the
cleanup of the client handle (line 252) and the `free` of the buffer
(line 254) run on that path unconditionally. -/
def send_data_actions (mallocOk : Bool) (_performRet : EspErr) : List SendAction :=
  SendAction.mallocBuf ::
    (if mallocOk then
      [SendAction.httpInit, SendAction.httpSetMethod,
        SendAction.httpSetPostField, SendAction.httpPerform,
        SendAction.httpCleanup, SendAction.freeBuf]
    else [])

/-! ## Orchestrator (`app_main`, lines 317-346) -/

/-- Wake causes distinguished by `app_main` (line 327): the undefined cause
of a cold boot, versus everything else (the timer armed by the previous
cycle, the ULP wake, ...). -/
inductive WakeCause where
  | undefinedCause
  | timerWake
  | ulpWake
  | otherWake
deriving DecidableEq, Repr

/-- The externally visible actions of one `app_main` run, in order. -/
inductive Action where
  | enableTimerWakeup
  | ulpSetup
  | portsInit
  | ledOn
  | readBattery
  | sendData
  | ledOff
  | ulpEnable
  | deepSleepStart
deriving DecidableEq, Repr

/-- `app_main` (lines 317-346) as the sequence of actions it performs.
It always arms the timer wake first (line 325); on a cold boot it sets up
the ULP program, otherwise it initializes the ports, lights the LED, samples
the battery, runs `wifi_start` and — only on `ESP_OK` — uploads via
`send_data`, then turns the LED off. When `wifi_start` aborts (NVS
provisioning failure, `ESP_ERROR_CHECK`), nothing after it runs. Every
non-aborted path re-enables the ULP wake and ends in `esp_deep_sleep_start`. -/
def app_main (wc : WakeCause) (nvs1 nvs2 : EspErr) (bits : WaitBits) :
    List Action :=
  Action.enableTimerWakeup ::
    (if wc = WakeCause.undefinedCause then
      [Action.ulpSetup, Action.ulpEnable, Action.deepSleepStart]
    else
      Action.portsInit :: Action.ledOn :: Action.readBattery ::
        (match wifi_start nvs1 nvs2 bits with
          | none => []
          | some ret =>
              (if ret = EspErr.ok then [Action.sendData] else []) ++
                [Action.ledOff, Action.ulpEnable, Action.deepSleepStart]))

/-! ## Lemmas about the join state machine -/

/-- `s_retry_num` never exceeds the retry ceiling: the disconnect branch
increments it only while strictly below `CONFIG_MAXIMUM_RETRY`, and the
got-IP branch resets it to zero. -/
theorem retryNum_le_ceiling (R : Nat) :
    ∀ (es : List WifiEvent) (s : WifiState), s.retryNum ≤ R →
      (runEvents R s es).retryNum ≤ R := by
  intro es
  induction es with
  | nil => intro s hs; exact hs
  | cons e es ih =>
      intro s hs
      cases e with
      | staStart => exact ih _ hs
      | staDisconnected =>
          by_cases hlt : s.retryNum < R
          · simpa [runEvents, wifi_event_handler, hlt] using
              ih { s with attempts := s.attempts + 1, retryNum := s.retryNum + 1 }
                (by simpa using hlt)
          · simpa [runEvents, wifi_event_handler, hlt] using
              ih { s with failed := true } (by simpa using hs)
      | gotIp =>
          simpa [runEvents, wifi_event_handler] using
            ih { s with retryNum := 0, connected := true } (by simp)
      | otherEvent => exact ih _ hs

/-- On a failure trace (no station-start, no got-IP), each connect attempt
is matched by a retry-counter increment: `attempts` and `retryNum` move in
lockstep. -/
theorem attempts_balance (R : Nat) :
    ∀ (es : List WifiEvent), failureEvents es → ∀ s : WifiState,
      (runEvents R s es).attempts + s.retryNum
        = s.attempts + (runEvents R s es).retryNum := by
  intro es
  induction es with
  | nil => intro _ s; rfl
  | cons e es ih =>
      intro hfe s
      have he : e = WifiEvent.staDisconnected ∨ e = WifiEvent.otherEvent :=
        hfe e (by simp)
      have hrest : failureEvents es := fun x hx => hfe x (by simp [hx])
      rcases he with he | he <;> subst he
      · by_cases hlt : s.retryNum < R
        · have h := ih hrest
            { s with attempts := s.attempts + 1, retryNum := s.retryNum + 1 }
          simp only [runEvents, wifi_event_handler, if_pos hlt] at *
          omega
        · have h := ih hrest { s with failed := true }
          simp only [runEvents, wifi_event_handler, if_neg hlt] at *
          omega
      · simpa [runEvents, wifi_event_handler] using ih hrest s

/-- C1: starting from a fresh join (`s_retry_num = 0`) with the single
initial station-start event followed by any sequence of disconnected (or
irrelevant) events, `wifi_event_handler` calls `esp_wifi_connect` at most
`CONFIG_MAXIMUM_RETRY + 1` times, and exactly once when the ceiling is 0. -/
theorem wifi_connect_attempts_bounded (R : Nat) (es : List WifiEvent)
    (h : failureEvents es) :
    (runEvents R initWifiState (WifiEvent.staStart :: es)).attempts ≤ R + 1
    ∧ (runEvents 0 initWifiState (WifiEvent.staStart :: es)).attempts = 1 := by
  have hs1 : ∀ R' : Nat, wifi_event_handler R' initWifiState WifiEvent.staStart
      = ⟨0, false, false, 1⟩ := by
    intro R'; simp [wifi_event_handler, initWifiState]
  constructor
  · have hb := attempts_balance R es h (⟨0, false, false, 1⟩ : WifiState)
    have hr := retryNum_le_ceiling R es (⟨0, false, false, 1⟩ : WifiState)
      (by simp)
    have hb' : (runEvents R (⟨0, false, false, 1⟩ : WifiState) es).attempts
        = 1 + (runEvents R (⟨0, false, false, 1⟩ : WifiState) es).retryNum := by
      simpa using hb
    simp only [runEvents, hs1]
    omega
  · have hb := attempts_balance 0 es h (⟨0, false, false, 1⟩ : WifiState)
    have hr := retryNum_le_ceiling 0 es (⟨0, false, false, 1⟩ : WifiState)
      (by simp)
    have hb' : (runEvents 0 (⟨0, false, false, 1⟩ : WifiState) es).attempts
        = 1 + (runEvents 0 (⟨0, false, false, 1⟩ : WifiState) es).retryNum := by
      simpa using hb
    simp only [runEvents, hs1]
    omega

/-- Witness for `wifi_connect_attempts_bounded` at `R = 1` and a trace of
two disconnect events. -/
theorem wifi_connect_attempts_bounded_witness :
    (runEvents 1 initWifiState
        [WifiEvent.staStart, WifiEvent.staDisconnected,
          WifiEvent.staDisconnected]).attempts ≤ 2
    ∧ (runEvents 0 initWifiState
        [WifiEvent.staStart, WifiEvent.staDisconnected,
          WifiEvent.staDisconnected]).attempts = 1 :=
  wifi_connect_attempts_bounded 1
    [WifiEvent.staDisconnected, WifiEvent.staDisconnected] (by decide)

/-- C7: the retry counter is non-decreasing under every event except got-IP,
is zeroed (together with the connected signal) exactly by the got-IP
transition, never exceeds the ceiling on any run from the initial state, and
at the moment the disconnect branch first sets `WIFI_FAIL_BIT` the counter
equals the ceiling. -/
theorem retry_counter_invariants (R : Nat) (s : WifiState)
    (es : List WifiEvent) :
    (∀ e, e ≠ WifiEvent.gotIp →
      s.retryNum ≤ (wifi_event_handler R s e).retryNum)
    ∧ ((wifi_event_handler R s WifiEvent.gotIp).retryNum = 0
        ∧ (wifi_event_handler R s WifiEvent.gotIp).connected = true)
    ∧ (runEvents R initWifiState es).retryNum ≤ R
    ∧ (s.retryNum ≤ R → s.failed = false →
        (wifi_event_handler R s WifiEvent.staDisconnected).failed = true →
        s.retryNum = R) := by
  refine ⟨?_, by simp [wifi_event_handler], ?_, ?_⟩
  · intro e he
    cases e with
    | staStart => simp [wifi_event_handler]
    | staDisconnected =>
        by_cases hlt : s.retryNum < R <;>
          simp [wifi_event_handler, hlt]
    | gotIp => exact absurd rfl he
    | otherEvent => simp [wifi_event_handler]
  · exact retryNum_le_ceiling R es initWifiState (by simp [initWifiState])
  · intro hle hf hfail
    by_cases hlt : s.retryNum < R
    · rw [show wifi_event_handler R s WifiEvent.staDisconnected
          = { s with attempts := s.attempts + 1, retryNum := s.retryNum + 1 }
          from by simp [wifi_event_handler, hlt]] at hfail
      simp [hf] at hfail
    · omega

/-- Witness for `retry_counter_invariants`: at ceiling 2 and a state with
`s_retry_num = 2`, the failure transition fires with the counter at the
ceiling. -/
theorem retry_counter_invariants_witness :
    (⟨2, false, false, 3⟩ : WifiState).retryNum = 2 :=
  (retry_counter_invariants 2 ⟨2, false, false, 3⟩ []).2.2.2
    (by decide) rfl (by decide)

/-- C10: provided NVS provisioning succeeds, `wifi_start` returns `ESP_OK`
exactly when the connected bit was observed (the connected test comes first,
so it wins when both bits are set), and in both failure cases — fail bit
set, or neither bit set ("unexpected event") — it returns the same
`ESP_ERR_WIFI_NOT_CONNECT`, making the two indistinguishable to `app_main`. -/
theorem wifi_start_result_characterization (nvs1 nvs2 : EspErr)
    (bits : WaitBits) (h : nvs_flash_init_seq nvs1 nvs2 = EspErr.ok) :
    (wifi_start nvs1 nvs2 bits = some EspErr.ok ↔ bits.connectedBit = true)
    ∧ (bits.connectedBit = false →
        wifi_start nvs1 nvs2 bits = some EspErr.errWifiNotConnect) := by
  obtain ⟨c, f⟩ := bits
  cases c <;> cases f <;> simp [wifi_start, h, wait_ret]

/-- Witness for `wifi_start_result_characterization` with both bits set:
the connected bit wins. -/
theorem wifi_start_result_characterization_witness :
    (wifi_start EspErr.ok EspErr.ok ⟨true, true⟩ = some EspErr.ok
      ↔ (⟨true, true⟩ : WaitBits).connectedBit = true)
    ∧ ((⟨true, true⟩ : WaitBits).connectedBit = false →
        wifi_start EspErr.ok EspErr.ok ⟨true, true⟩
          = some EspErr.errWifiNotConnect) :=
  wifi_start_result_characterization EspErr.ok EspErr.ok ⟨true, true⟩ rfl

/-! ## Battery sampler properties -/

/-- After any number of ADC reads followed by the final disable write, the
enable line is low. -/
theorem finalBattEnLevel_reads_then_low (k : Nat) :
    ∀ l : Nat,
      finalBattEnLevel (List.replicate k BattAction.adcRead
        ++ [BattAction.battEnSet 0]) l = 0 := by
  induction k with
  | zero => intro l; rfl
  | succ k ih => intro l; simpa [List.replicate_succ, finalBattEnLevel] using ih l

/-- C5: on every run of `read_battery` — whatever the calibration-check
outcome, the indeterminate `calib_enable` garbage, or the number of
transient ADC retries — the `CONFIG_BATT_EN` line is back at level 0 when
the function returns, and the final hardware action is that disable write. -/
theorem read_battery_disables_enable_line (env : BattEnv) (l : Nat) :
    finalBattEnLevel (read_battery_trace env) l = 0
    ∧ (read_battery_trace env).getLast? = some (BattAction.battEnSet 0) := by
  constructor
  · simpa [read_battery_trace, finalBattEnLevel] using
      finalBattEnLevel_reads_then_low (env.transientFails + 1) 1
  · have h : read_battery_trace env
        = (BattAction.battEnSet 1 :: BattAction.settleDelay ::
            List.replicate (env.transientFails + 1) BattAction.adcRead)
          ++ [BattAction.battEnSet 0] := by
      simp [read_battery_trace]
    rw [h, List.getLast?_concat]

/-- C3 (code bug): with the calibration check reporting `ESP_ERR_INVALID_VERSION`
("eFuse not burnt", i.e. calibration not provisioned), the uninitialized
`calib_enable` is never assigned; if its indeterminate stack value is
`true`, `read_battery` takes the calibrated branch and stores
`calVoltage * CONFIG_BATT_COEF + CONFIG_BATT_OFFSET` (here 2000) instead of
the 0 the spec requires, while the intended value `false` would yield 0. -/
theorem read_battery_uninitialized_calib_divergence :
    read_battery_voltage
        { calibInitGarbage := true, calibRet := EspErr.errInvalidVersion,
          transientFails := 0, calVoltage := 1000, coef := 2, offset := 0 } = 2000
    ∧ read_battery_voltage
        { calibInitGarbage := false, calibRet := EspErr.errInvalidVersion,
          transientFails := 0, calVoltage := 1000, coef := 2, offset := 0 } = 0 :=
  ⟨rfl, rfl⟩

/-! ## Orchestrator properties -/

/-- C2: whenever NVS provisioning succeeds (the one fatal path excepted),
every `app_main` run — for every wake cause and every join outcome — arms
the timer wake source as its first action, re-enables the ULP coprocessor
wake, and ends in exactly one `esp_deep_sleep_start`, its sole terminal
action. -/
theorem app_main_always_rearms_and_sleeps (wc : WakeCause)
    (nvs1 nvs2 : EspErr) (bits : WaitBits)
    (h : nvs_flash_init_seq nvs1 nvs2 = EspErr.ok) :
    (app_main wc nvs1 nvs2 bits).head? = some Action.enableTimerWakeup
    ∧ Action.ulpEnable ∈ app_main wc nvs1 nvs2 bits
    ∧ (app_main wc nvs1 nvs2 bits).getLast? = some Action.deepSleepStart
    ∧ (app_main wc nvs1 nvs2 bits).count Action.deepSleepStart = 1 := by
  obtain ⟨c, f⟩ := bits
  cases wc <;> cases c <;> cases f <;>
    simp [app_main, wifi_start, h, wait_ret]

/-- Witness for `app_main_always_rearms_and_sleeps` on a timer wake with a
successful join. -/
theorem app_main_always_rearms_and_sleeps_witness :
    (app_main WakeCause.timerWake EspErr.ok EspErr.ok ⟨true, false⟩).head?
        = some Action.enableTimerWakeup
    ∧ Action.ulpEnable ∈ app_main WakeCause.timerWake EspErr.ok EspErr.ok
        ⟨true, false⟩
    ∧ (app_main WakeCause.timerWake EspErr.ok EspErr.ok ⟨true, false⟩).getLast?
        = some Action.deepSleepStart
    ∧ (app_main WakeCause.timerWake EspErr.ok EspErr.ok
        ⟨true, false⟩).count Action.deepSleepStart = 1 :=
  app_main_always_rearms_and_sleeps WakeCause.timerWake EspErr.ok EspErr.ok
    ⟨true, false⟩ rfl

/-- C8: deep sleep is reached iff the run is a cold boot (which never touches
NVS) or NVS provisioning succeeds — so the erase-and-retry provisioning
failure is the only abort — and any join failure (fail bit or unexpected
event) merely skips `send_data` while the run still reaches sleep. -/
theorem app_main_single_fatal_path (wc : WakeCause) (nvs1 nvs2 : EspErr)
    (bits : WaitBits) :
    (Action.deepSleepStart ∈ app_main wc nvs1 nvs2 bits ↔
      (wc = WakeCause.undefinedCause ∨ nvs_flash_init_seq nvs1 nvs2 = EspErr.ok))
    ∧ (nvs_flash_init_seq nvs1 nvs2 = EspErr.ok → bits.connectedBit = false →
        Action.sendData ∉ app_main wc nvs1 nvs2 bits
        ∧ Action.deepSleepStart ∈ app_main wc nvs1 nvs2 bits) := by
  obtain ⟨c, f⟩ := bits
  by_cases h : nvs_flash_init_seq nvs1 nvs2 = EspErr.ok <;>
    cases wc <;> cases c <;> cases f <;>
      simp [app_main, wifi_start, h, wait_ret]

/-- Witness for `app_main_single_fatal_path` on a timer wake whose join
exhausts its retries: no upload, sleep still entered. -/
theorem app_main_single_fatal_path_witness :
    Action.sendData ∉ app_main WakeCause.timerWake EspErr.ok EspErr.ok
        ⟨false, true⟩
    ∧ Action.deepSleepStart ∈ app_main WakeCause.timerWake EspErr.ok EspErr.ok
        ⟨false, true⟩ :=
  (app_main_single_fatal_path WakeCause.timerWake EspErr.ok EspErr.ok
    ⟨false, true⟩).2 rfl rfl

/-! ## Formatter length bounds -/

/-- A number below `10 ^ k` renders in at most `k` decimal digits (for any
sufficient fuel). -/
theorem natDecCharsAux_length_le :
    ∀ (f n k : Nat), n < f → n < 10 ^ k → 1 ≤ k →
      (natDecCharsAux f n).length ≤ k := by
  intro f
  induction f with
  | zero => omega
  | succ f ih =>
      intro n k hf hk hk1
      by_cases h10 : n < 10
      · simp [natDecCharsAux, h10]; omega
      · have hk2 : 2 ≤ k := by
          rcases Nat.lt_or_ge k 2 with hk' | hk'
          · interval_cases k
            omega
          · exact hk'
        have hm : (10 : Nat) ^ k = 10 ^ (k - 1) * 10 := by
          rw [← pow_succ]
          congr 1
          omega
        have hdiv : n / 10 < 10 ^ (k - 1) := by omega
        have hrec := ih (n / 10) (k - 1) (by omega) hdiv (by omega)
        simp [natDecCharsAux, h10]
        omega

/-- Digit-count bound for `natDecChars`. -/
theorem natDecChars_length_le (n k : Nat) (h : n < 10 ^ k) (hk : 1 ≤ k) :
    (natDecChars n).length ≤ k :=
  natDecCharsAux_length_le (n + 1) n k (by omega) h hk

/-- `%0.2f` output length is at most 6 over the declared sensor ranges
(−40.00 … 125.00, scaled to hundredths). -/
theorem fmt2f_length_le (c : Int) (h1 : -4000 ≤ c) (h2 : c ≤ 12500) :
    (fmt2f c).length ≤ 6 := by
  by_cases hneg : c < 0
  · have habs : c.natAbs ≤ 4000 := by omega
    have hd : (natDecChars (c.natAbs / 100)).length ≤ 2 :=
      natDecChars_length_le _ 2 (by omega) (by omega)
    simp [fmt2f, hneg, twoFracChars]
    omega
  · have habs : c.natAbs ≤ 12500 := by omega
    have hd : (natDecChars (c.natAbs / 100)).length ≤ 3 :=
      natDecChars_length_le _ 3 (by omega) (by omega)
    simp [fmt2f, hneg, twoFracChars]
    omega

/-- `%d` output length is at most 10 for a non-negative C `int` value. -/
theorem intDecChars_length_le (b : Int) (h1 : 0 ≤ b) (h2 : b ≤ 2147483647) :
    (intDecChars b).length ≤ 10 := by
  have hneg : ¬ b < 0 := by omega
  have hd : (natDecChars b.natAbs).length ≤ 10 :=
    natDecChars_length_le _ 10 (by omega) (by omega)
  simpa [intDecChars, hneg] using hd

/-- The exact length of the formatted body in terms of its parts. -/
theorem send_data_body_length (meas site place : List Char)
    (tempC humiC batt : Int) :
    (send_data_body meas site place tempC humiC batt).length
      = 3 * (influx_tag meas site place).length + 21
        + (fmt2f tempC).length + (fmt2f humiC).length
        + (intDecChars batt).length := by
  simp [send_data_body, influx_tag]
  omega

/-- C4 (amended): the formatter can never write past `BUF_SIZE` (`snprintf`
truncates to 127 characters plus the terminating NUL), and whenever the
configured `INFLUX_TAG` prefix is at most 28 bytes, the full three-line body
for any field values in the declared ranges (temperature −40.00…125.00,
humidity 0.00…100.00, battery a non-negative `int`) fits untruncated in the
128-byte buffer. -/
theorem send_data_buffer_safety (meas site place : List Char)
    (tempC humiC batt : Int)
    (htag : (influx_tag meas site place).length ≤ 28)
    (ht1 : -4000 ≤ tempC) (ht2 : tempC ≤ 12500)
    (hh1 : 0 ≤ humiC) (hh2 : humiC ≤ 10000)
    (hb1 : 0 ≤ batt) (hb2 : batt ≤ 2147483647) :
    (∀ l : List Char, (snprintf_write BUF_SIZE l).length ≤ BUF_SIZE - 1)
    ∧ (send_data_body meas site place tempC humiC batt).length
        ≤ BUF_SIZE - 1 := by
  constructor
  · intro l
    simp [snprintf_write, BUF_SIZE]
  · have hlen := send_data_body_length meas site place tempC humiC batt
    have h1 := fmt2f_length_le tempC ht1 ht2
    have h2 := fmt2f_length_le humiC (by omega) (by omega)
    have h3 := intDecChars_length_le batt hb1 hb2
    rw [hlen]
    simp only [BUF_SIZE]
    omega

/-- Witness for `send_data_buffer_safety` at the sample configuration
`temp,site=home,place=room` (tag length 25) and in-range readings. -/
theorem send_data_buffer_safety_witness :
    (∀ l : List Char, (snprintf_write BUF_SIZE l).length ≤ BUF_SIZE - 1)
    ∧ (send_data_body "temp".data "home".data "room".data 2345 5612 3700).length
        ≤ BUF_SIZE - 1 :=
  send_data_buffer_safety "temp".data "home".data "room".data 2345 5612 3700
    (by decide) (by decide) (by decide) (by decide) (by decide) (by decide)
    (by decide)

set_option maxRecDepth 4000 in
/-- C4 (counterexample shape): with the perfectly ordinary configuration
`temperature,site=home,place=room` (tag length 32) and in-range field values
(125.00 degrees, 100.00 percent, battery 2147483647 mV, a non-negative
`int`), the body is 139 characters and does not fit the 128-byte buffer. -/
theorem send_data_body_overflow :
    ¬ ((send_data_body "temperature".data "home".data "room".data
          12500 10000 2147483647).length ≤ BUF_SIZE - 1)
    ∧ (-4000 ≤ (12500 : Int) ∧ (12500 : Int) ≤ 12500
        ∧ 0 ≤ (10000 : Int) ∧ (10000 : Int) ≤ 10000
        ∧ 0 ≤ (2147483647 : Int) ∧ (2147483647 : Int) ≤ 2147483647) := by
  constructor
  · decide
  · decide

/-! ## Decimal-digit rendering (C6) -/

/-- Digit characters are never a decimal point. -/
theorem digitChar_ne_dot (d : Nat) (hd : d < 10) : Nat.digitChar d ≠ '.' := by
  interval_cases d <;> decide

/-- Every character produced by the decimal renderer is a digit, hence not
a point. -/
theorem natDecCharsAux_no_dot :
    ∀ (f n : Nat), ∀ c ∈ natDecCharsAux f n, c ≠ '.' := by
  intro f
  induction f with
  | zero => intro n c hc; simp [natDecCharsAux] at hc
  | succ f ih =>
      intro n c hc
      by_cases h10 : n < 10
      · simp [natDecCharsAux, h10] at hc
        subst hc
        exact digitChar_ne_dot n h10
      · simp [natDecCharsAux, h10] at hc
        rcases hc with hc | hc
        · exact ih _ c hc
        · subst hc; exact digitChar_ne_dot _ (by omega)

/-- Fraction counting distributes over append. -/
theorem fracLenAux_append (l1 l2 : List Char) :
    ∀ acc, fracLenAux acc (l1 ++ l2) = fracLenAux (fracLenAux acc l1) l2 := by
  induction l1 with
  | nil => intro acc; rfl
  | cons c cs ih =>
      intro acc
      by_cases hc : c = '.' <;> simp [fracLenAux, hc, ih]

/-- A rendered value containing no point has no fraction digits. -/
theorem fracLenAux_none_of_no_dot :
    ∀ l : List Char, (∀ c ∈ l, c ≠ '.') → fracLenAux none l = none := by
  intro l
  induction l with
  | nil => intro _; rfl
  | cons c cs ih =>
      intro h
      have hc : c ≠ '.' := h c (by simp)
      simp only [fracLenAux, if_neg hc, Option.map_none']
      exact ih fun x hx => h x (by simp [hx])

/-- `%0.2f` output always carries exactly two digits after its point. -/
theorem fracLen_fmt2f (c : Int) : fracLen (fmt2f c) = some 2 := by
  have h1 : Nat.digitChar (c.natAbs % 100 / 10) ≠ '.' :=
    digitChar_ne_dot _ (by omega)
  have h2 : Nat.digitChar (c.natAbs % 100 % 10) ≠ '.' :=
    digitChar_ne_dot _ (by omega)
  unfold fracLen fmt2f twoFracChars
  rw [fracLenAux_append, fracLenAux_append]
  simp [fracLenAux, h1, h2]

/-- `%d` output never contains a decimal point. -/
theorem fracLen_intDecChars (b : Int) : fracLen (intDecChars b) = none := by
  have hno : ∀ c ∈ natDecChars b.natAbs, c ≠ '.' :=
    fun c hc => natDecCharsAux_no_dot _ _ c hc
  by_cases hb : b < 0
  · have hminus : ('-' : Char) ≠ '.' := by decide
    unfold fracLen intDecChars
    rw [if_pos hb]
    simp only [fracLenAux, if_neg hminus, Option.map_none']
    exact fracLenAux_none_of_no_dot _ hno
  · unfold fracLen intDecChars
    rw [if_neg hb]
    exact fracLenAux_none_of_no_dot _ hno

/-- C6 (amended): in every serialized body the `temp` and `humi` field
values render with exactly two digits after the decimal point, while the
`batt` field value — formatted with `%d` — renders as a plain integer with
no fractional part at all. -/
theorem send_data_field_decimals (tempC humiC batt : Int) :
    fracLen (fmt2f tempC) = some 2
    ∧ fracLen (fmt2f humiC) = some 2
    ∧ fracLen (intDecChars batt) = none :=
  ⟨fracLen_fmt2f tempC, fracLen_fmt2f humiC, fracLen_intDecChars batt⟩

/-- C6 (counterexample to the claim as stated): the `batt` field value of a
body with a 3700 mV battery reading renders as `3700` — zero digits after a
decimal point, not two. -/
theorem send_data_batt_no_decimals :
    fracLen (intDecChars 3700) = none
    ∧ ¬ fracLen (intDecChars 3700) = some 2 := by
  constructor
  · decide
  · decide

/-! ## Reporter resource handling (C9) -/

/-- C9: when the buffer `malloc` fails, `send_data` performs no transport
operation at all (its trace is the failed acquisition alone); when the
buffer was acquired, whatever `esp_http_client_perform` returns, the call
ends by cleaning up the transport handle and then freeing the buffer. -/
theorem send_data_resource_release (mallocOk : Bool) (performRet : EspErr) :
    (mallocOk = false →
      send_data_actions mallocOk performRet = [SendAction.mallocBuf])
    ∧ (mallocOk = true →
      List.IsSuffix [SendAction.httpCleanup, SendAction.freeBuf]
        (send_data_actions mallocOk performRet)
      ∧ SendAction.httpInit ∈ send_data_actions mallocOk performRet) := by
  constructor
  · intro h
    subst h
    rfl
  · intro h
    subst h
    refine ⟨⟨[SendAction.mallocBuf, SendAction.httpInit, SendAction.httpSetMethod,
      SendAction.httpSetPostField, SendAction.httpPerform], rfl⟩, ?_⟩
    simp [send_data_actions]

/-- Witness for `send_data_resource_release`, on a failed acquisition and on
an acquired buffer with a failing transport request. -/
theorem send_data_resource_release_witness :
    send_data_actions false EspErr.ok = [SendAction.mallocBuf]
    ∧ List.IsSuffix [SendAction.httpCleanup, SendAction.freeBuf]
        (send_data_actions true EspErr.otherErr) :=
  ⟨(send_data_resource_release false EspErr.ok).1 rfl,
    ((send_data_resource_release true EspErr.otherErr).2 rfl).1⟩

end TempSensor
